import Mathlib

/-!
Shallow embedding of `src/kilo.c` (terminal raw-mode lifecycle and the
byte-read loop) together with theorems settling the specification claims.

The termios flag constants carry the Linux (asm-generic) values used by the
program's target platform.  Flag fields are 32-bit unsigned integers,
modelled as `Nat` with bitwise operations; clearing a mask `m` is
`x &&& (mask32 ^^^ m)`, the 32-bit image of C's `x &= ~m`.
-/

namespace Kilo

/-! ### termios constants (Linux asm-generic values) -/

def IGNBRK : Nat := 1
def BRKINT : Nat := 2
def INPCK : Nat := 16
def ISTRIP : Nat := 32
def ICRNL : Nat := 256
def IXON : Nat := 1024

def OPOST : Nat := 1
def ONLCR : Nat := 4

def CSIZE : Nat := 48
def CS7 : Nat := 32
def CS8 : Nat := 48
def CREAD : Nat := 128

def ISIG : Nat := 1
def ICANON : Nat := 2
def ECHO : Nat := 8
def IEXTEN : Nat := 32768

def VTIME : Nat := 5
def VMIN : Nat := 6

def EINTR : Nat := 4
def EAGAIN : Nat := 11

/-- 2^32 - 1: flag fields of `struct termios` are 32-bit unsigned. -/
def mask32 : Nat := 4294967295

/-- C's `x &= ~m` on a 32-bit flag field. -/
def clearBits (x m : Nat) : Nat := x &&& (mask32 ^^^ m)

/-- Shallow embedding of `struct termios`: the four flag fields and the
control-character array `c_cc` (a list indexed by `VMIN`, `VTIME`, ...). -/
structure Termios where
  c_iflag : Nat
  c_oflag : Nat
  c_cflag : Nat
  c_lflag : Nat
  c_cc : List Nat
  deriving DecidableEq

/-- The derivation of the raw-mode configuration from the snapshot, exactly
as `enableRawMode` computes `raw` from `orig_termios` (src/kilo.c lines
70, 94-97, 106-107).  Note the source really writes `raw.c_iflag` on lines
95 and 96, and really indexes `c_cc` only at `VMIN` and `VTIME`. -/
def rawMode (orig : Termios) : Termios :=
  let raw := orig
  let raw := { raw with c_iflag := clearBits raw.c_iflag (BRKINT ||| ICRNL ||| INPCK ||| ISTRIP ||| IXON) }
  let raw := { raw with c_iflag := clearBits raw.c_iflag OPOST }
  let raw := { raw with c_iflag := raw.c_iflag ||| CS8 }
  let raw := { raw with c_lflag := clearBits raw.c_lflag (ECHO ||| ICANON ||| IEXTEN ||| ISIG) }
  let raw := { raw with c_cc := raw.c_cc.set VMIN 0 }
  let raw := { raw with c_cc := raw.c_cc.set VTIME 1 }
  raw

/-- Effect of a successful `disableRawMode` on the device configuration:
`tcsetattr(STDIN_FILENO, TCSAFLUSH, &orig_termios)` replaces the device
configuration by the stored snapshot (src/kilo.c line 31). -/
def disableRawModeApply (orig : Termios) (_dev : Termios) : Termios := orig

/-- A typical cooked-mode terminal configuration, used as a concrete
snapshot in witnesses and counterexamples. -/
def cookedTermios : Termios :=
  { c_iflag := IGNBRK ||| BRKINT ||| INPCK ||| ISTRIP ||| ICRNL ||| IXON
    c_oflag := OPOST ||| ONLCR
    c_cflag := CS7 ||| CREAD
    c_lflag := ISIG ||| ICANON ||| ECHO ||| IEXTEN
    c_cc := [3, 28, 127, 21, 4, 0, 1, 0] }

/-! ### The byte-read loop (`main`, src/kilo.c lines 140-167)

One loop iteration performs `read(STDIN_FILENO, &c, 1)`.  The possible
outcomes of that call are modelled by `ReadEvent`: one byte delivered
(`bytes b`, with `b` the value the signed `char c` receives, in
-128..127), zero bytes (`timeout`), or failure with an `errno`
(`err en`).  A run of the loop is driven by a finite trace of such
events. -/

inductive ReadEvent where
  | bytes (b : Int)
  | timeout
  | err (en : Nat)
  deriving DecidableEq

/-- glibc C-locale `iscntrl` on the values a signed `char` can hold:
true exactly on 0..31 and 127 (bytes 128..255, seen as negatives, are
unclassified in the C locale). -/
def iscntrl (c : Int) : Bool := (0 ≤ c && c ≤ 31) || c == 127

def CR : Char := Char.ofNat 13
def LF : Char := Char.ofNat 10

/-- The apostrophe character appearing in the `%d (%c)`-style format. -/
def quoteChar : Char := Char.ofNat 39

/-- `printf("%c", c)`: the `int` argument is converted to `unsigned char`. -/
def charArg (c : Int) : Char := Char.ofNat (c % 256).toNat

/-- The line printed for the byte value `c` (src/kilo.c lines 160-164):
`printf("%d\r\n", c)` when `iscntrl(c)`, else the decimal value followed
by the character between quotes in parentheses, also CR-LF terminated. -/
def renderLine (c : Int) : List Char :=
  if iscntrl c then (toString c).data ++ [CR, LF]
  else (toString c).data ++ [' ', '(', quoteChar, charArg c, quoteChar, ')', CR, LF]

/-- Result of one loop iteration. -/
inductive StepRes where
  | next (line : List Char)
  | stop (line : List Char)
  | fatalStep
  deriving DecidableEq

/-- One iteration of the `while(1)` loop on a given read outcome.
`c` is initialised to `'\0'` each iteration; a failed or empty read
leaves it 0.  A failure with `errno != EAGAIN` calls `die("read")`;
every other outcome falls through to the classification `printf` and
then the `c == 'q'` (=113) check. -/
def iterStep : ReadEvent → StepRes
  | ReadEvent.err en =>
      if en == EAGAIN then StepRes.next (renderLine 0) else StepRes.fatalStep
  | ReadEvent.timeout => StepRes.next (renderLine 0)
  | ReadEvent.bytes b =>
      if b == 113 then StepRes.stop (renderLine b) else StepRes.next (renderLine b)

/-- How a run of the loop ended: still looping when the trace ran out,
normal `break` on the q byte (then `return 0`), or `die("read")`. -/
inductive ProcOutcome where
  | running
  | exitZero
  | fatalExit
  deriving DecidableEq

/-- Run of the `while(1)` loop over a trace of read outcomes.  Returns the
lines printed to standard output (in order), how the loop ended, and the
part of the trace never consumed (reads never issued). -/
def runLoop : List ReadEvent → List (List Char) × ProcOutcome × List ReadEvent
  | [] => ([], ProcOutcome.running, [])
  | e :: rest =>
    match iterStep e with
    | StepRes.fatalStep => ([], ProcOutcome.fatalExit, rest)
    | StepRes.stop line => ([line], ProcOutcome.exitZero, rest)
    | StepRes.next line =>
      let r := runLoop rest
      (line :: r.1, r.2.1, r.2.2)

/-! ### Process lifecycle (`main`, `enableRawMode`, `die`, `atexit`)

`runProc` models one whole process execution.  The environment records
whether each terminal OS call succeeds and what the reads deliver.  The
observable lifecycle events are: the snapshot capture (`tcgetattr`
succeeding, after which `atexit(disableRawMode)` is registered),
`enableRawMode` returning successfully, an invocation of
`disableRawMode`, and process termination with an exit status.  `die`
calls `exit(1)`, which runs the registered handlers (if any) before the
process ends; a failure inside the exit-time `disableRawMode` again calls
`die`, leaving status 1. -/

inductive Ev where
  | snapshot
  | enterOk
  | restore
  | terminated (code : Nat)
  deriving DecidableEq

structure Env where
  tcgetattrOk : Bool
  tcsetattrRawOk : Bool
  tcsetattrRestoreOk : Bool
  events : List ReadEvent

structure ProcResult where
  trace : List Ev
  device : Termios
  output : List (List Char)
  status : Option Nat

/-- One full process execution from device configuration `dev0`.
Paths, in source order:
* `tcgetattr` fails (src/kilo.c line 41): `die("tcgetattr")` exits with
  status 1 before `atexit(disableRawMode)` was registered, so no restore
  runs;
* `tcsetattr(raw)` fails (line 113): `die("tcsetattr")`; `exit(1)` runs
  the already-registered `disableRawMode`, which re-applies the snapshot;
* otherwise the loop runs; on `break` (q byte) `main` returns 0, on
  `die("read")` exit status is 1; either way the exit machinery runs
  `disableRawMode` once; if that restoring `tcsetattr` fails,
  `disableRawMode` itself dies and the status is 1. -/
def runProc (env : Env) (dev0 : Termios) : ProcResult :=
  if env.tcgetattrOk = false then
    { trace := [Ev.terminated 1], device := dev0, output := [], status := some 1 }
  else if env.tcsetattrRawOk = false then
    { trace := [Ev.snapshot, Ev.restore, Ev.terminated 1]
      device := if env.tcsetattrRestoreOk then disableRawModeApply dev0 dev0 else dev0
      output := []
      status := some 1 }
  else
    let devRaw := rawMode dev0
    let r := runLoop env.events
    match r.2.1 with
    | ProcOutcome.running =>
      { trace := [Ev.snapshot, Ev.enterOk], device := devRaw, output := r.1, status := none }
    | ProcOutcome.exitZero =>
      { trace := [Ev.snapshot, Ev.enterOk, Ev.restore,
                  Ev.terminated (if env.tcsetattrRestoreOk then 0 else 1)]
        device := if env.tcsetattrRestoreOk then disableRawModeApply dev0 devRaw else devRaw
        output := r.1
        status := some (if env.tcsetattrRestoreOk then 0 else 1) }
    | ProcOutcome.fatalExit =>
      { trace := [Ev.snapshot, Ev.enterOk, Ev.restore, Ev.terminated 1]
        device := if env.tcsetattrRestoreOk then disableRawModeApply dev0 devRaw else devRaw
        output := r.1
        status := some 1 }

/-- Number of `restore` events in a lifecycle trace. -/
def restoreCount (t : List Ev) : Nat := t.count Ev.restore

/-- `restoresAfter mark t seen = true` iff every `restore` event in `t`
is preceded (strictly) by an occurrence of `mark`, where `seen` records
whether `mark` already occurred. -/
def restoresAfter (mark : Ev) : List Ev → Bool → Bool
  | [], _ => true
  | e :: rest, seen =>
    if e == Ev.restore then seen && restoresAfter mark rest seen
    else restoresAfter mark rest (seen || e == mark)

/-! ### Theorems for the claims -/

/-- Claim C1 (code bug): the spec says the output-flags field of the
applied raw configuration has the OPOST bit cleared relative to the
snapshot, but `enableRawMode` writes `raw.c_iflag &= ~(OPOST)`
(src/kilo.c line 95): on the cooked snapshot the applied `c_oflag` is
unchanged with OPOST still set, while the OPOST-valued bit (IGNBRK) is
cleared from `c_iflag` instead. -/
theorem rawMode_opost_bug :
    (rawMode cookedTermios).c_oflag = cookedTermios.c_oflag ∧
    (rawMode cookedTermios).c_oflag &&& OPOST = OPOST ∧
    cookedTermios.c_iflag &&& IGNBRK = IGNBRK ∧
    (rawMode cookedTermios).c_iflag &&& IGNBRK = 0 := by decide

/-- Claim C5 (code bug): the spec says the control-flags field of the
applied raw configuration has the character-size bits forced to CS8, but
`enableRawMode` writes `raw.c_iflag |= (CS8)` (src/kilo.c line 96): on a
snapshot whose character size is CS7, the applied `c_cflag` is unchanged
(size still CS7, not CS8), while the CS8-valued bits (INPCK|ISTRIP) are
set in `c_iflag` instead. -/
theorem rawMode_cs8_bug :
    (rawMode cookedTermios).c_cflag = cookedTermios.c_cflag ∧
    (rawMode cookedTermios).c_cflag &&& CSIZE = CS7 ∧
    CS7 ≠ CS8 ∧
    (rawMode cookedTermios).c_iflag &&& CS8 = CS8 := by decide

/-- Claim C7: restoration is idempotent — applying the stored snapshot to
the device twice in a row (`disableRawMode`, src/kilo.c line 31) leaves
the device in the same configuration as applying it once, because the
snapshot does not change between invocations. -/
theorem disableRawMode_idempotent (orig dev : Termios) :
    disableRawModeApply orig (disableRawModeApply orig dev) =
      disableRawModeApply orig dev := rfl

/-- Claim C10: relative to the snapshot, `enableRawMode` applies the
output-flags field and the control-flags field unchanged, and changes no
control character other than the ones at indices VMIN and VTIME. -/
theorem rawMode_frame (orig : Termios) (i : Nat) :
    (rawMode orig).c_oflag = orig.c_oflag ∧
    (rawMode orig).c_cflag = orig.c_cflag ∧
    (i ≠ VMIN → i ≠ VTIME → ((rawMode orig).c_cc)[i]? = (orig.c_cc)[i]?) := by
  refine ⟨rfl, rfl, fun h1 h2 => ?_⟩
  show ((orig.c_cc.set VMIN 0).set VTIME 1)[i]? = (orig.c_cc)[i]?
  rw [List.getElem?_set_ne (Ne.symm h2), List.getElem?_set_ne (Ne.symm h1)]

/-- Witness for `rawMode_frame` at a concrete snapshot and index. -/
theorem rawMode_frame_witness :
    (rawMode cookedTermios).c_oflag = cookedTermios.c_oflag ∧
    ((rawMode cookedTermios).c_cc)[0]? = (cookedTermios.c_cc)[0]? := by
  have h := rawMode_frame cookedTermios 0
  exact ⟨h.1, h.2.2 (by decide) (by decide)⟩

/-- Counterexample to claim C2: an iteration in which the read produced
zero bytes is not a no-op — `c` keeps the value 0, so the loop prints the
control-classification line for byte 0 (the characters `0`, CR, LF). -/
theorem timeout_prints_counterexample :
    (runLoop [ReadEvent.timeout]).1 = [[Char.ofNat 48, CR, LF]] ∧
    (runLoop [ReadEvent.timeout]).1 ≠ [] := by decide

/-- Claim C2 as amended: in an iteration whose read produces zero bytes,
the byte variable keeps the value 0, so the iteration prints the
classification line for byte 0 and the loop runs again on the remaining
trace; the case is not treated as an error and nothing else changes. -/
theorem timeout_iteration (rest : List ReadEvent) :
    runLoop (ReadEvent.timeout :: rest) =
      ([Char.ofNat 48, CR, LF] :: (runLoop rest).1,
        (runLoop rest).2.1, (runLoop rest).2.2) := rfl

/-- Counterexample to claim C3: a read failing because it was interrupted
(errno = EINTR = 4) is not recovered by retrying — the loop takes the
fatal path (`die("read")`), since the code exempts only EAGAIN. -/
theorem eintr_fatal_counterexample :
    (runLoop [ReadEvent.err EINTR]).2.1 = ProcOutcome.fatalExit := by decide

/-- Claim C3 as amended: a failed read is recovered (the loop falls
through, classifying the still-zero byte, and runs again) exactly when
the error is "would block" (EAGAIN); an interrupted read (EINTR) and
every other failure take the fatal-error path. -/
theorem read_failure_policy (en : Nat) :
    (iterStep (ReadEvent.err en) = StepRes.fatalStep ↔ en ≠ EAGAIN) ∧
    (en = EAGAIN → iterStep (ReadEvent.err en) = StepRes.next (renderLine 0)) := by
  constructor
  · constructor
    · intro h hEq
      simp [iterStep, hEq] at h
    · intro h
      simp [iterStep, h]
  · intro h
    simp [iterStep, h]

/-- Witness for `read_failure_policy`: at errno = EAGAIN = 11 the loop
continues, printing the classification line for byte 0. -/
theorem read_failure_policy_witness :
    iterStep (ReadEvent.err 11) = StepRes.next (renderLine 0) :=
  (read_failure_policy 11).2 rfl

/-- Claim C8: on the input bytes 0x61 0x62 0x71 the loop prints the
classification line for the byte 97, then the one for 98, then the one
for 113, stops without consuming anything beyond the q byte, and the
process exits with status 0. -/
theorem abq_run (extra : List ReadEvent) (dev0 : Termios) :
    runLoop ([ReadEvent.bytes 97, ReadEvent.bytes 98, ReadEvent.bytes 113] ++ extra) =
      ([[Char.ofNat 57, Char.ofNat 55, ' ', '(', quoteChar, Char.ofNat 97, quoteChar, ')', CR, LF],
        [Char.ofNat 57, Char.ofNat 56, ' ', '(', quoteChar, Char.ofNat 98, quoteChar, ')', CR, LF],
        [Char.ofNat 49, Char.ofNat 49, Char.ofNat 51, ' ', '(', quoteChar, Char.ofNat 113, quoteChar, ')', CR, LF]],
        ProcOutcome.exitZero, extra) ∧
    (runProc ⟨true, true, true,
        [ReadEvent.bytes 97, ReadEvent.bytes 98, ReadEvent.bytes 113]⟩ dev0).status =
      some 0 :=
  ⟨rfl, rfl⟩

/-- Claim C9: the line printed for a byte classified as a control byte
consists of its decimal value alone, the line printed for any other byte
consists of its decimal value followed by its literal character form
between quotes, and every printed line ends with CR LF. -/
theorem classification_format (c : Int) :
    (iscntrl c = true → renderLine c = (toString c).data ++ [CR, LF]) ∧
    (iscntrl c = false →
      renderLine c = (toString c).data ++
        [' ', '(', quoteChar, charArg c, quoteChar, ')', CR, LF]) ∧
    ∃ pre, renderLine c = pre ++ [CR, LF] := by
  refine ⟨fun h => by simp [renderLine, h], fun h => by simp [renderLine, h], ?_⟩
  by_cases h : iscntrl c = true
  · exact ⟨(toString c).data, by simp [renderLine, h]⟩
  · refine ⟨(toString c).data ++ [' ', '(', quoteChar, charArg c, quoteChar, ')'], ?_⟩
    simp [renderLine, h]

/-- Witness for `classification_format` at the control byte 3 and the
printable byte 97. -/
theorem classification_format_witness :
    renderLine 3 = (toString (3 : Int)).data ++ [CR, LF] ∧
    renderLine 97 = (toString (97 : Int)).data ++
      [' ', '(', quoteChar, charArg 97, quoteChar, ')', CR, LF] :=
  ⟨(classification_format 3).1 (by decide), (classification_format 97).2.1 (by decide)⟩

/-- Counterexample to claim C4: when applying the raw configuration
fails (`tcsetattr` on src/kilo.c line 113 returns -1), `die` calls
`exit(1)` and the already-registered `disableRawMode` runs even though
`enableRawMode` never completed successfully. -/
theorem restore_without_enter_counterexample :
    Ev.restore ∈ (runProc ⟨true, false, true, []⟩ cookedTermios).trace ∧
    Ev.enterOk ∉ (runProc ⟨true, false, true, []⟩ cookedTermios).trace := by decide

/-- Claim C4 as amended: `disableRawMode` never runs before the snapshot
has been captured and the handler registered (`tcgetattr` succeeded); it
runs at most once per process lifetime; it runs exactly once on every
terminating path on which the snapshot was captured — including the
fatal path where applying the raw configuration fails — and zero times
when the initial attribute query fails. -/
theorem restore_discipline (env : Env) (dev0 : Termios) :
    restoresAfter Ev.snapshot (runProc env dev0).trace false = true ∧
    restoreCount (runProc env dev0).trace ≤ 1 ∧
    (env.tcgetattrOk = true → (runProc env dev0).status.isSome = true →
      restoreCount (runProc env dev0).trace = 1) ∧
    (env.tcgetattrOk = false → restoreCount (runProc env dev0).trace = 0) := by
  obtain ⟨g, r, s, es⟩ := env
  rcases h : (runLoop es).2.1 <;> cases g <;> cases r <;> cases s <;>
    simp [runProc, h, restoresAfter, restoreCount]

/-- Witness for `restore_discipline` on a concrete run that reads the q
byte: the restore runs exactly once. -/
theorem restore_discipline_witness :
    restoreCount (runProc ⟨true, true, true, [ReadEvent.bytes 113]⟩ cookedTermios).trace = 1 :=
  (restore_discipline ⟨true, true, true, [ReadEvent.bytes 113]⟩ cookedTermios).2.2.1
    rfl (by decide)

/-- Claim C6: restoration fidelity — on every run in which the snapshot
was captured, the restore ran and the restoring `tcsetattr` succeeded,
the device configuration after the process ends equals bit for bit the
configuration captured before raw mode was first entered. -/
theorem restore_fidelity (env : Env) (dev0 : Termios)
    (hg : env.tcgetattrOk = true) (hs : env.tcsetattrRestoreOk = true)
    (hr : Ev.restore ∈ (runProc env dev0).trace) :
    (runProc env dev0).device = dev0 := by
  obtain ⟨g, r, s, es⟩ := env
  rcases h : (runLoop es).2.1 <;> cases r <;>
    simp_all [runProc, h, disableRawModeApply]

/-- Witness for `restore_fidelity` on a concrete run reading the q
byte from the cooked-mode snapshot. -/
theorem restore_fidelity_witness :
    (runProc ⟨true, true, true, [ReadEvent.bytes 113]⟩ cookedTermios).device =
      cookedTermios :=
  restore_fidelity ⟨true, true, true, [ReadEvent.bytes 113]⟩ cookedTermios
    rfl rfl (by decide)

end Kilo
